import Mathlib

/-!
Shallow embedding of `connection_monitor.py` (class `ConnectionMonitor`).

Latencies and timestamps are modelled as exact rationals (`ℚ`); the one
irrational quantity, the jitter produced by `math.sqrt`, lives in `ℝ`.
Python's `None` is modelled by `Option`; a Python local variable that may be
*unbound* (never assigned on the taken path) is modelled by an outer `Option`
whose `none` means "referencing this name raises UnboundLocalError".
-/

/-- Result of `check_connection_ping` (source lines 49-95): the 4-tuple
`(is_connected, avg_ping, jitter, packet_loss)`.  The exception path at line 95
returns `(False, None, None, None)`, hence every metric field is optional. -/
structure PingProbeResult where
  success : Bool
  avg_ping : Option ℚ
  jitter : Option ℝ
  packet_loss : Option ℚ

/-- Result of `check_connection_socket` / `check_connection_http` /
`check_connection_udp` (source lines 97-183): the pair `(status, latency_ms)`. -/
structure ProbeLatencyResult where
  success : Bool
  latency : Option ℚ

/-- The local variables of `check_connection` just before the CSV write
(source lines 192-217).  `ping_time`, `jitter`, `packet_loss`, `udp_time` are
initialised to `None` at line 192 and hence always bound; `socket_time` and
`http_time` are assigned only inside the `"all"` branch (lines 213-214), so
they are modelled as `Option (Option ℚ)` with the outer `none` meaning the
name is unbound. -/
structure TickVars where
  is_connected : Bool
  ping_time : Option ℚ
  jitter : Option ℝ
  packet_loss : Option ℚ
  udp_time : Option ℚ
  socket_time : Option (Option ℚ)
  http_time : Option (Option ℚ)

/-- One data row of the CSV log (source lines 221, 226-227): the values after
`timestamp`/`datetime`, i.e. `connected, ping_time, jitter, packet_loss,
udp_time, socket_time, http_time`. -/
structure Row where
  connected : Bool
  ping_time : Option ℚ
  jitter : Option ℝ
  packet_loss : Option ℚ
  udp_time : Option ℚ
  socket_time : Option ℚ
  http_time : Option ℚ

/-- The `if/elif` dispatch of `check_connection` (source lines 192-214),
parameterised by the results the four probes would return this tick.
Returns `none` for the final `else` branch (unknown method, line 215), in
which the local variables are never completed: the source instead recurses. -/
def computeTickVars (check_method : String) (ping_result : PingProbeResult)
    (socket_result http_result udp_result : ProbeLatencyResult) : Option TickVars :=
  if check_method = "ping" then
    some ⟨ping_result.success, ping_result.avg_ping, ping_result.jitter,
      ping_result.packet_loss, none, none, none⟩
  else if check_method = "socket" then
    some ⟨socket_result.success, socket_result.latency, none, none, none, none, none⟩
  else if check_method = "http" then
    some ⟨http_result.success, http_result.latency, none, none, none, none, none⟩
  else if check_method = "udp" then
    some ⟨udp_result.success, none, none, none, udp_result.latency, none, none⟩
  else if check_method = "all" then
    some ⟨ping_result.success || socket_result.success || http_result.success ||
        udp_result.success,
      ping_result.avg_ping, ping_result.jitter, ping_result.packet_loss,
      udp_result.latency, some socket_result.latency, some http_result.latency⟩
  else none

/-- The CSV row write of `check_connection` (source lines 226-227):
`writer.writerow([... , socket_time, http_time])` references `socket_time` and
`http_time` unconditionally; if either is unbound Python raises
`UnboundLocalError`. -/
def writeRow (v : TickVars) : Except String Row :=
  match v.socket_time with
  | none => Except.error "UnboundLocalError"
  | some st =>
    match v.http_time with
    | none => Except.error "UnboundLocalError"
    | some ht =>
      Except.ok ⟨v.is_connected, v.ping_time, v.jitter, v.packet_loss, v.udp_time, st, ht⟩

/-- `check_connection` (source lines 185-229), fuelled.  A known method
computes the tick variables and performs the row write; the unknown-method
branch (lines 215-217) prints a message and calls `self.check_connection()`
again with `self.check_method` unchanged, i.e. it recurses with the same
arguments.  `none` means the fuel ran out, i.e. the call never returns. -/
def check_connection : ℕ → String → PingProbeResult → ProbeLatencyResult →
    ProbeLatencyResult → ProbeLatencyResult → Option (Except String Row)
  | 0, _, _, _, _, _ => none
  | fuel + 1, check_method, ping_result, socket_result, http_result, udp_result =>
    match computeTickVars check_method ping_result socket_result http_result udp_result with
    | some v => some (writeRow v)
    | none => check_connection fuel check_method ping_result socket_result http_result udp_result

/-- `ConnectionMonitor.__init__` (source line 45) stores the given
`check_method` verbatim: `self.check_method = check_method`, with no
validation of any kind. -/
def init_check_method (check_method : String) : String := check_method

/-- The five method names offered by the command-line parser
(`choices` at source line 467). -/
def valid_check_methods : List String := ["ping", "socket", "http", "udp", "all"]

/-- C1: for each of the five check methods, the `connected` flag the tick
computes (and, for `"all"`, writes into the persisted row) is the logical OR
of the success flags of exactly the probes selected by that method: the single
probe's flag for a single-method configuration, and
`ping or socket or http or udp` for `"all"`. -/
theorem check_connection_connected_or (pr : PingProbeResult)
    (sr hr ur : ProbeLatencyResult) :
    (computeTickVars "ping" pr sr hr ur).map TickVars.is_connected = some pr.success
    ∧ (computeTickVars "socket" pr sr hr ur).map TickVars.is_connected = some sr.success
    ∧ (computeTickVars "http" pr sr hr ur).map TickVars.is_connected = some hr.success
    ∧ (computeTickVars "udp" pr sr hr ur).map TickVars.is_connected = some ur.success
    ∧ (computeTickVars "all" pr sr hr ur).map TickVars.is_connected
        = some (pr.success || sr.success || hr.success || ur.success)
    ∧ ∀ fuel : ℕ, check_connection (fuel + 1) "all" pr sr hr ur
        = some (Except.ok ⟨pr.success || sr.success || hr.success || ur.success,
            pr.avg_ping, pr.jitter, pr.packet_loss, ur.latency, sr.latency, hr.latency⟩) :=
  ⟨rfl, rfl, rfl, rfl, rfl, fun _ => rfl⟩

/-- C2: the claim fails on the code.  For each single-method configuration
(`ping`, `socket`, `http`, `udp`) the tick reaches the row write with
`socket_time` and `http_time` unbound (they are assigned only in the `"all"`
branch) and raises `UnboundLocalError` instead of appending a row; only the
`"all"` configuration appends a row. -/
theorem check_connection_unbound_local (pr : PingProbeResult)
    (sr hr ur : ProbeLatencyResult) (fuel : ℕ) :
    check_connection (fuel + 1) "ping" pr sr hr ur
        = some (Except.error "UnboundLocalError")
    ∧ check_connection (fuel + 1) "socket" pr sr hr ur
        = some (Except.error "UnboundLocalError")
    ∧ check_connection (fuel + 1) "http" pr sr hr ur
        = some (Except.error "UnboundLocalError")
    ∧ check_connection (fuel + 1) "udp" pr sr hr ur
        = some (Except.error "UnboundLocalError")
    ∧ ∃ r : Row, check_connection (fuel + 1) "all" pr sr hr ur = some (Except.ok r) :=
  ⟨rfl, rfl, rfl, rfl, ⟨_, rfl⟩⟩

/-- C5: the claim fails on the code.  The constructor stores the unknown
method value `"bogus"` unvalidated (it is outside the parser's `choices`
list), and a tick that observes it never terminates: the unknown-method
branch calls `check_connection` again with the method unchanged, so no amount
of fuel produces a result (in Python: unbounded recursion ending in
`RecursionError`), rather than the value being rejected at configuration
time. -/
theorem check_connection_unknown_method_diverges (fuel : ℕ) (pr : PingProbeResult)
    (sr hr ur : ProbeLatencyResult) :
    init_check_method "bogus" = "bogus"
    ∧ "bogus" ∉ valid_check_methods
    ∧ check_connection fuel "bogus" pr sr hr ur = none := by
  refine ⟨rfl, by decide, ?_⟩
  induction fuel with
  | zero => rfl
  | succ n ih => simpa [check_connection, computeTickVars] using ih

/-!
Episode tracker and report statistics (`generate_report`, source lines
279-326).  A record is modelled as the pair `(connected, timestamp)`.  The
source draws episode boundaries from the `datetime` column and elapsed/total
times from the `timestamp` column; both are written from the same clock
reading `now` at each tick (lines 226-227), so a single rational time value
models both.  Python's `if disconnect_start:` is truth-testing a `datetime`
object, which is always truthy, hence it is exactly `Option.isSome` here.
-/

/-- The `for i, status in enumerate(statuses)` loop of `generate_report`
(source lines 308-314), carried state = the previous record's status, the
accumulated closed episodes, and the pending `disconnect_start`.  The `i > 0`
guard is realised by starting the loop from the second record with the first
record's status as `prev`. -/
def disconnects_loop : Bool → List (Bool × ℚ) → List (ℚ × ℚ) → Option ℚ →
    List (ℚ × ℚ) × Option ℚ
  | _, [], acc, ds => (acc, ds)
  | prev, (status, t) :: rest, acc, ds =>
    if !status && prev then
      disconnects_loop status rest acc (some t)
    else
      match ds with
      | some s =>
        if status && !prev then disconnects_loop status rest (acc ++ [(s, t)]) none
        else disconnects_loop status rest acc (some s)
      | none => disconnects_loop status rest acc none

/-- The timestamp of the last record of the non-empty list `r :: rest`
(Python's `datetimes[-1]` / `timestamps[-1]`). -/
def last_timestamp : (Bool × ℚ) → List (Bool × ℚ) → ℚ
  | (_, t0), [] => t0
  | _, r :: rest => last_timestamp r rest

/-- The complete episode computation of `generate_report` (source lines
306-316): run the loop, then, if `disconnect_start` is still set, close the
open episode at the last record's timestamp (`datetimes[-1]`). -/
def disconnects : List (Bool × ℚ) → List (ℚ × ℚ)
  | [] => []
  | (s0, t0) :: rest =>
    match disconnects_loop s0 rest [] none with
    | (acc, some s) => acc ++ [(s, last_timestamp (s0, t0) rest)]
    | (acc, none) => acc

/-- `total_time = timestamps[-1] - timestamps[0] if timestamps else 0`
(source line 322). -/
def total_time (records : List (Bool × ℚ)) : ℚ :=
  match records with
  | [] => 0
  | (s0, t0) :: rest => last_timestamp (s0, t0) rest - t0

/-- `total_disconnect_time = sum((end - start) for ...)` (source lines
324-325). -/
def total_disconnect_time (records : List (Bool × ℚ)) : ℚ :=
  ((disconnects records).map (fun p => p.2 - p.1)).sum

/-- `uptime_percentage = (1 - total_disconnect_time / total_time) * 100 if
total_time > 0 else 0` (source line 326). -/
def uptime_percentage (records : List (Bool × ℚ)) : ℚ :=
  if 0 < total_time records then
    (1 - total_disconnect_time records / total_time records) * 100
  else 0

/-- C6: on the series `[connected, connected, disconnected, disconnected,
connected]` at timestamps `[0,1,2,3,4]` the tracker produces exactly one
episode, with start 2, end 4 and duration 2 seconds. -/
theorem disconnects_example_one_episode :
    disconnects [(true, 0), (true, 1), (false, 2), (false, 3), (true, 4)]
        = [((2 : ℚ), (4 : ℚ))]
    ∧ (4 : ℚ) - 2 = 2 := by
  constructor
  · rfl
  · norm_num

/-- The loop opens no episode while every visited status is `true`: the
opening condition `not status and statuses[i-1]` needs a `false` status. -/
lemma disconnects_loop_all_true (rest : List (Bool × ℚ)) (prev : Bool)
    (acc : List (ℚ × ℚ)) (h : ∀ r ∈ rest, r.1 = true) :
    disconnects_loop prev rest acc none = (acc, none) := by
  induction rest generalizing prev acc with
  | nil => rfl
  | cons a tl ih =>
    obtain ⟨status, t⟩ := a
    have hs : status = true := h (status, t) (List.mem_cons_self _ _)
    subst hs
    simp only [disconnects_loop, Bool.not_true, Bool.false_and, Bool.false_eq_true,
      if_false, ite_false]
    exact ih true acc fun r hr => h r (List.mem_cons_of_mem _ hr)

/-- With `prev = false` and every visited status `false`, the loop opens no
episode either: opening also needs the previous status to be `true`. -/
lemma disconnects_loop_all_false (rest : List (Bool × ℚ))
    (acc : List (ℚ × ℚ)) (h : ∀ r ∈ rest, r.1 = false) :
    disconnects_loop false rest acc none = (acc, none) := by
  induction rest generalizing acc with
  | nil => rfl
  | cons a tl ih =>
    obtain ⟨status, t⟩ := a
    have hs : status = false := h (status, t) (List.mem_cons_self _ _)
    subst hs
    simp only [disconnects_loop, Bool.and_false, if_false, ite_false]
    exact ih acc fun r hr => h r (List.mem_cons_of_mem _ hr)

/-- C7: if the loop ends with an episode still open (`disconnect_start = s`),
the final episode list is the closed episodes followed by `(s, lastTs)` where
`lastTs` is the last record's timestamp, and the appended episode's duration
is `lastTs - s` (possibly 0). -/
theorem disconnects_terminal_close (s0 : Bool) (t0 : ℚ) (rest : List (Bool × ℚ))
    (s : ℚ) (h : (disconnects_loop s0 rest [] none).2 = some s) :
    disconnects ((s0, t0) :: rest)
        = (disconnects_loop s0 rest [] none).1 ++ [(s, last_timestamp (s0, t0) rest)]
    ∧ (disconnects ((s0, t0) :: rest)).map (fun p => p.2 - p.1)
        = ((disconnects_loop s0 rest [] none).1.map fun p => p.2 - p.1)
            ++ [last_timestamp (s0, t0) rest - s] := by
  rcases hl : disconnects_loop s0 rest [] none with ⟨acc, ds⟩
  rw [hl] at h
  simp only at h
  subst h
  refine ⟨by simp [disconnects, hl], by simp [disconnects, hl]⟩

/-- C7 witness: the series `[connected, disconnected]` at timestamps `[0, 1]`
yields exactly one episode, closed at the last timestamp: start 1, end 1,
duration 0. -/
theorem disconnects_terminal_close_witness :
    disconnects [(true, (0 : ℚ)), (false, 1)] = [((1 : ℚ), (1 : ℚ))]
    ∧ ((disconnects [(true, (0 : ℚ)), (false, 1)]).map fun p => p.2 - p.1)
        = [(0 : ℚ)] := by
  have h := disconnects_terminal_close true 0 [(false, 1)] 1 rfl
  have hl : (disconnects_loop true [(false, (1 : ℚ))] [] none).1 = [] := rfl
  constructor
  · rw [h.1, hl]; rfl
  · rw [h.2, hl]; norm_num [last_timestamp]

/-- C8 counterexample: the series `[disconnected, connected]` at timestamps
`[0, 1]` begins disconnected, yet the tracker reports zero episodes — in
particular no episode starting at the series start 0 — because the loop skips
index 0 and only opens an episode at a disconnected record whose predecessor
is connected. -/
theorem leading_disconnect_ignored_cex :
    disconnects [(false, (0 : ℚ)), (true, 1)] = []
    ∧ ¬ ∃ p ∈ disconnects [(false, (0 : ℚ)), (true, 1)], p.1 = 0 := by
  refine ⟨rfl, ?_⟩
  rintro ⟨p, hp, -⟩
  have hnil : p ∈ ([] : List (ℚ × ℚ)) := hp
  simp at hnil

/-- C8 amended: the tracker never opens an episode for a leading disconnected
run.  Its output does not depend on the first record's timestamp when that
record is disconnected, and a series whose records are all disconnected
yields zero episodes. -/
theorem leading_disconnect_ignored (t0 t0' : ℚ) (rest : List (Bool × ℚ)) :
    disconnects ((false, t0) :: rest) = disconnects ((false, t0') :: rest)
    ∧ ((∀ r ∈ rest, r.1 = false) → disconnects ((false, t0) :: rest) = []) := by
  constructor
  · cases rest with
    | nil => rfl
    | cons b bs =>
      rcases hl : disconnects_loop false (b :: bs) [] none with ⟨acc, ds⟩
      cases ds with
      | none => simp [disconnects, hl]
      | some s => simp [disconnects, hl, last_timestamp]
  · intro h
    simp [disconnects, disconnects_loop_all_false rest [] h]

/-- C8 amended witness: an all-disconnected two-record series produces zero
episodes, and replacing the leading timestamp does not change the output. -/
theorem leading_disconnect_ignored_witness :
    disconnects [(false, (0 : ℚ)), (false, 1)]
        = disconnects [(false, (7 : ℚ)), (false, 1)]
    ∧ disconnects [(false, (0 : ℚ)), (false, 1)] = [] := by
  have h := leading_disconnect_ignored 0 7 [(false, 1)]
  exact ⟨h.1, h.2 (by decide)⟩

/-- C9 counterexample: a single connected record has zero episodes but its
elapsed time `timestamps[-1] - timestamps[0]` is 0, so `generate_report`
takes the `else 0` branch and reports an uptime of 0 percent, not 100. -/
theorem uptime_single_record_cex :
    disconnects [(true, (0 : ℚ))] = []
    ∧ uptime_percentage [(true, (0 : ℚ))] = 0
    ∧ (0 : ℚ) ≠ 100 := by
  refine ⟨rfl, ?_, by norm_num⟩
  norm_num [uptime_percentage, total_time, last_timestamp]

/-- C9 amended: an all-connected series has zero episodes; its uptime is
reported as 100 percent whenever the elapsed time `timestamps[-1] -
timestamps[0]` is positive, and as 0 percent when the elapsed time is zero
(e.g. a single record). -/
theorem all_connected_uptime (records : List (Bool × ℚ))
    (h : ∀ r ∈ records, r.1 = true) :
    disconnects records = []
    ∧ (0 < total_time records → uptime_percentage records = 100)
    ∧ (total_time records = 0 → uptime_percentage records = 0) := by
  have hd : disconnects records = [] := by
    cases records with
    | nil => rfl
    | cons r0 rest =>
      obtain ⟨s0, t0⟩ := r0
      simp [disconnects,
        disconnects_loop_all_true rest s0 [] fun r hr => h r (List.mem_cons_of_mem _ hr)]
  refine ⟨hd, ?_, ?_⟩
  · intro hpos
    rw [uptime_percentage, if_pos hpos, total_disconnect_time, hd]
    norm_num
  · intro hz
    rw [uptime_percentage, hz]
    norm_num

/-- C9 amended witness: two connected records at timestamps 0 and 5 give zero
episodes and an uptime of 100 percent. -/
theorem all_connected_uptime_witness :
    disconnects [(true, (0 : ℚ)), (true, 5)] = []
    ∧ uptime_percentage [(true, (0 : ℚ)), (true, 5)] = 100 := by
  have h := all_connected_uptime [(true, 0), (true, 5)] (by decide)
  have ht : total_time [(true, (0 : ℚ)), (true, 5)] = 5 := by
    simp [total_time, last_timestamp]
  exact ⟨h.1, h.2.1 (by rw [ht]; norm_num)⟩

/-!
Series-store reading (`generate_report`, source lines 290-301).  A raw CSV
cell is abstracted by whether Python's converters accept it: `val q` is text
that `float` parses to the value `q`, `noneStr` is the `'None'`/empty
sentinel, and `malformed` is any other text, on which `float`/`int`/
`strptime` raise `ValueError`.  The `connected` column is only ever written
as an integer, so `bool(int(cell))` is modelled as the nonzero test on
numeric cells.
-/

/-- A raw CSV cell, classified by how the row parsers treat it. -/
inductive Cell
  | val (q : ℚ)
  | noneStr
  | malformed
deriving DecidableEq

/-- `float(cell)` (source line 293): raises `ValueError` unless the text is
numeric. -/
def pyFloat : Cell → Except String ℚ
  | Cell.val q => Except.ok q
  | _ => Except.error "ValueError"

/-- `float(cell) if cell not in ['None', '', None] else None`
(source lines 296-301). -/
def pyOptFloat : Cell → Except String (Option ℚ)
  | Cell.noneStr => Except.ok none
  | Cell.val q => Except.ok (some q)
  | Cell.malformed => Except.error "ValueError"

/-- `bool(int(cell))` (source line 295). -/
def pyBoolOfInt : Cell → Except String Bool
  | Cell.val q => Except.ok (decide (q ≠ 0))
  | _ => Except.error "ValueError"

/-- `datetime.datetime.strptime(cell, ...)` (source line 294), with the
parsed datetime abstracted to a rational time value. -/
def pyStrptime : Cell → Except String ℚ
  | Cell.val q => Except.ok q
  | _ => Except.error "ValueError"

/-- One raw CSV data row, in the column order of the log header
(source line 221). -/
structure RawRow where
  timestamp : Cell
  dtime : Cell
  connected : Cell
  ping_time : Cell
  jitter : Cell
  packet_loss : Cell
  udp_time : Cell
  socket_time : Cell
  http_time : Cell
deriving DecidableEq

/-- One fully parsed record, as appended to the in-memory series lists. -/
structure ParsedRecord where
  timestamp : ℚ
  dtime : ℚ
  connected : Bool
  ping_time : Option ℚ
  jitter : Option ℚ
  packet_loss : Option ℚ
  udp_time : Option ℚ
  socket_time : Option ℚ
  http_time : Option ℚ
deriving DecidableEq

/-- The body of the reader loop for one row (source lines 293-301): each
conversion may raise, and a raised `ValueError` propagates. -/
def parse_row (row : RawRow) : Except String ParsedRecord := do
  let ts ← pyFloat row.timestamp
  let dt ← pyStrptime row.dtime
  let cn ← pyBoolOfInt row.connected
  let pt ← pyOptFloat row.ping_time
  let jt ← pyOptFloat row.jitter
  let pl ← pyOptFloat row.packet_loss
  let ut ← pyOptFloat row.udp_time
  let st ← pyOptFloat row.socket_time
  let ht ← pyOptFloat row.http_time
  Except.ok ⟨ts, dt, cn, pt, jt, pl, ut, st, ht⟩

/-- The `for row in reader` loop (source lines 292-301): rows are parsed in
order; there is no per-row exception handler, so the first conversion error
aborts the whole read. -/
def read_rows : List RawRow → Except String (List ParsedRecord)
  | [] => Except.ok []
  | row :: rest =>
    match parse_row row with
    | Except.error e => Except.error e
    | Except.ok pr =>
      match read_rows rest with
      | Except.error e => Except.error e
      | Except.ok prs => Except.ok (pr :: prs)

/-- Whether a raw row survives the conversions of the reader loop. -/
def row_parses (row : RawRow) : Bool :=
  match parse_row row with
  | Except.ok _ => true
  | Except.error _ => false

/-- A fully well-formed row: every cell numeric or (for the optional metric
columns) the `None` sentinel. -/
def goodRow : RawRow :=
  ⟨Cell.val 0, Cell.val 0, Cell.val 1, Cell.noneStr, Cell.noneStr, Cell.noneStr,
    Cell.noneStr, Cell.noneStr, Cell.noneStr⟩

/-- A row whose `timestamp` cell is non-numeric text. -/
def badRow : RawRow :=
  ⟨Cell.malformed, Cell.val 0, Cell.val 1, Cell.noneStr, Cell.noneStr, Cell.noneStr,
    Cell.noneStr, Cell.noneStr, Cell.noneStr⟩

/-- C10 counterexample: a store holding one well-formed row followed by one
row with a type-invalid `timestamp` field makes the read raise `ValueError`
and return no records at all, instead of skipping the malformed row and
returning the good one. -/
theorem read_rows_aborts_cex :
    read_rows [goodRow, badRow] = Except.error "ValueError" := rfl

/-- C10 amended: the read tolerates zero, one, or many well-formed rows and
returns one record per row in order, but it fails (raises `ValueError`)
exactly when some row has a type-invalid field — malformed rows are never
skipped. -/
theorem read_rows_spec (rows : List RawRow) :
    ((∀ r ∈ rows, row_parses r = true) →
        ∃ l, read_rows rows = Except.ok l ∧ l.length = rows.length)
    ∧ ((∃ e, read_rows rows = Except.error e) ↔ ∃ r ∈ rows, row_parses r = false) := by
  induction rows with
  | nil =>
    refine ⟨fun _ => ⟨[], rfl, rfl⟩, ?_⟩
    constructor
    · rintro ⟨e, he⟩
      exact Except.noConfusion he
    · rintro ⟨r, hr, -⟩
      exact absurd hr (List.not_mem_nil r)
  | cons row rest ih =>
    constructor
    · intro h
      have hrow : row_parses row = true := h row (List.mem_cons_self _ _)
      obtain ⟨pr, hpr⟩ : ∃ pr, parse_row row = Except.ok pr := by
        unfold row_parses at hrow
        cases hp : parse_row row with
        | ok v => exact ⟨v, rfl⟩
        | error e => rw [hp] at hrow; exact Bool.noConfusion hrow
      obtain ⟨l, hl, hlen⟩ := ih.1 fun r hr => h r (List.mem_cons_of_mem _ hr)
      refine ⟨pr :: l, ?_, by simp [hlen]⟩
      simp [read_rows, hpr, hl]
    · constructor
      · rintro ⟨e, he⟩
        cases hp : parse_row row with
        | error e0 =>
          refine ⟨row, List.mem_cons_self _ _, ?_⟩
          unfold row_parses
          rw [hp]
        | ok pr =>
          cases hr : read_rows rest with
          | error e1 =>
            obtain ⟨r, hrmem, hrp⟩ := ih.2.mp ⟨e1, hr⟩
            exact ⟨r, List.mem_cons_of_mem _ hrmem, hrp⟩
          | ok l =>
            rw [read_rows, hp, hr] at he
            exact Except.noConfusion he
      · rintro ⟨r, hrmem, hrp⟩
        rcases List.mem_cons.mp hrmem with rfl | hmem
        · cases hp : parse_row r with
          | error e0 => exact ⟨e0, by rw [read_rows, hp]⟩
          | ok pr =>
            unfold row_parses at hrp
            rw [hp] at hrp
            exact Bool.noConfusion hrp
        · obtain ⟨e1, he1⟩ := ih.2.mpr ⟨r, hmem, hrp⟩
          cases hp : parse_row row with
          | error e0 => exact ⟨e0, by rw [read_rows, hp]⟩
          | ok pr => exact ⟨e1, by rw [read_rows, hp, he1]⟩

/-- C10 amended witness: two well-formed rows read back as exactly two
records, and an empty store reads back as zero records. -/
theorem read_rows_spec_witness :
    (∃ l, read_rows [goodRow, goodRow] = Except.ok l ∧ l.length = 2)
    ∧ (∃ l, read_rows [] = Except.ok l ∧ l.length = 0) := by
  constructor
  · exact (read_rows_spec [goodRow, goodRow]).1 (by
      intro r hr
      rcases List.mem_cons.mp hr with rfl | hr2
      · rfl
      · rcases List.mem_cons.mp hr2 with rfl | hr3
        · rfl
        · exact absurd hr3 (List.not_mem_nil r))
  · exact (read_rows_spec []).1 (by intro r hr; exact absurd hr (List.not_mem_nil r))

/-!
Ping metrics (`check_connection_ping`, source lines 84-92).  The probe's
locale-dependent output parsing is an external collaborator; the function
below takes the list of successfully parsed round-trip times and computes the
returned tuple exactly as lines 84-92 do.  `math.sqrt` is `Real.sqrt`.
-/

/-- The metric computation of `check_connection_ping` on the parsed samples
`times` (source lines 84-92):
`successes = len(times)`,
`packet_loss = (ping_count - successes) / ping_count * 100`,
`avg_ping = sum(times) / successes if successes > 0 else None`,
`jitter = (sqrt(sum((t - avg_ping)^2 for t in times) / (successes - 1)) if
successes > 1 else 0) if avg_ping is not None else None`,
`is_connected = successes > 0`. -/
noncomputable def check_connection_ping (ping_count : ℕ) (times : List ℚ) :
    PingProbeResult :=
  let successes := times.length
  let packet_loss : ℚ := ((ping_count : ℚ) - (successes : ℚ)) / (ping_count : ℚ) * 100
  let avg_ping : Option ℚ :=
    if 0 < successes then some (times.sum / (successes : ℚ)) else none
  let jitter : Option ℝ :=
    match avg_ping with
    | some avg =>
      some (if 1 < successes
        then Real.sqrt
          ((((times.map fun t => (t - avg) ^ 2).sum / ((successes : ℚ) - 1) : ℚ) : ℝ))
        else 0)
    | none => none
  ⟨decide (0 < successes), avg_ping, jitter, some packet_loss⟩

/-- The sample standard deviation exactly as the specification words it:
`sqrt(Σ(x - avg)² / (n - 1))` with `avg` the mean of the samples. -/
noncomputable def sampleStdDev (xs : List ℚ) : ℝ :=
  Real.sqrt
    ((((xs.map fun x => (x - xs.sum / (xs.length : ℚ)) ^ 2).sum
        / ((xs.length : ℚ) - 1) : ℚ) : ℝ))

/-- C3: for `n` parsed samples, the reported jitter is the sample standard
deviation `sqrt(Σ(t - mean)² / (n - 1))` when `n ≥ 2`, is `0` when `n = 1`,
and is `None` (with the probe failed) when `n = 0`; the probe succeeds iff
`n ≥ 1`. -/
theorem check_connection_ping_jitter_spec (ping_count : ℕ) (times : List ℚ) :
    (2 ≤ times.length →
        (check_connection_ping ping_count times).jitter = some (sampleStdDev times))
    ∧ (times.length = 1 → (check_connection_ping ping_count times).jitter = some 0)
    ∧ (times.length = 0 →
        (check_connection_ping ping_count times).jitter = none
        ∧ (check_connection_ping ping_count times).success = false)
    ∧ ((check_connection_ping ping_count times).success = true ↔ 1 ≤ times.length) :=
  by
  refine ⟨?_, ?_, ?_, ?_⟩
  · intro h
    have h0 : 0 < times.length := by omega
    have h1 : 1 < times.length := by omega
    simp [check_connection_ping, sampleStdDev, h0, h1]
  · intro h
    simp [check_connection_ping, h]
  · intro h
    simp [check_connection_ping, h]
  · simp [check_connection_ping]
    omega

/-- C3 witness: with the two samples `[1, 3]` (mean 2) the jitter is the
sample standard deviation of the set, and the probe succeeds; with no samples
the jitter is `None` and the probe fails. -/
theorem check_connection_ping_jitter_witness :
    (check_connection_ping 3 [1, 3]).jitter = some (sampleStdDev [1, 3])
    ∧ (check_connection_ping 3 [1, 3]).success = true
    ∧ (check_connection_ping 3 []).jitter = none
    ∧ (check_connection_ping 3 []).success = false := by
  have h2 := check_connection_ping_jitter_spec 3 [1, 3]
  have h0 := check_connection_ping_jitter_spec 3 []
  exact ⟨h2.1 (by decide), h2.2.2.2.mpr (by decide),
    (h0.2.2.1 rfl).1, (h0.2.2.1 rfl).2⟩

/-- C4: the reported packet loss is `(ping_count - n) / ping_count * 100`
where `n` is the number of parsed samples; in particular with
`ping_count = 3` and exactly one sample it is within `0.01` of `66.67`. -/
theorem check_connection_ping_packet_loss (ping_count : ℕ) (times : List ℚ)
    (hc : 0 < ping_count) :
    (check_connection_ping ping_count times).packet_loss
        = some (((ping_count : ℚ) - (times.length : ℚ)) / (ping_count : ℚ) * 100)
    ∧ (ping_count = 3 → times.length = 1 →
        ∃ l, (check_connection_ping ping_count times).packet_loss = some l
          ∧ |l - 6667 / 100| ≤ 1 / 100) := by
  constructor
  · rfl
  · intro h3 h1
    refine ⟨((ping_count : ℚ) - (times.length : ℚ)) / (ping_count : ℚ) * 100, rfl, ?_⟩
    rw [h3, h1]
    rw [abs_le]
    constructor <;> norm_num

/-- C4 witness: with `ping_count = 3` and the single sample `[5]` the
reported packet loss is `(3 - 1) / 3 * 100 = 200/3`, which is within `0.01`
of `66.67`. -/
theorem check_connection_ping_packet_loss_witness :
    (check_connection_ping 3 [(5 : ℚ)]).packet_loss = some (200 / 3)
    ∧ ∃ l, (check_connection_ping 3 [(5 : ℚ)]).packet_loss = some l
        ∧ |l - 6667 / 100| ≤ 1 / 100 := by
  have h := check_connection_ping_packet_loss 3 [(5 : ℚ)] (by norm_num)
  constructor
  · rw [h.1]; norm_num
  · exact h.2 rfl rfl
